import Mathlib

/- Verification development for the resilient HTTP client in src/lib/api.ts.
   The request retry loop, backoff computation, header assembly and timeout
   resolution are embedded shallowly; the network is modelled as a function
   from attempt number to the outcome of that fetch call, and the random
   jitter source as a function from attempt number to the sampled value. -/

namespace Api

/-- Constant DEFAULT_TIMEOUT from api.ts (30 seconds). -/
def DEFAULT_TIMEOUT : Nat := 30000

/-- Constant UPLOAD_TIMEOUT from api.ts (60 seconds, used for FormData bodies). -/
def UPLOAD_TIMEOUT : Nat := 60000

/-- Constant MAX_RETRIES from api.ts. -/
def MAX_RETRIES : Nat := 3

/-- Constant INITIAL_RETRY_DELAY from api.ts (1 second), as a rational since jitter is real-valued. -/
def INITIAL_RETRY_DELAY : Rat := 1000

/-- Constant MAX_RETRY_DELAY from api.ts (10 seconds). -/
def MAX_RETRY_DELAY : Rat := 10000

/-- Function calculateRetryDelay from api.ts. The sampled jitter value
    (Math.random() * 1000 in the source) is passed in explicitly. -/
def calculateRetryDelay (attempt : Nat) (jitter : Rat) : Rat :=
  min (INITIAL_RETRY_DELAY * 2 ^ attempt + jitter) MAX_RETRY_DELAY

/-- Function isRetryableError from api.ts: retry on server errors and rate limits. -/
def isRetryableError (status : Nat) : Bool :=
  decide (500 ≤ status) || status == 429 || status == 408

/-- A JS string-keyed object of header names to values, modelled extensionally. -/
def Headers := String → Option String

/-- The empty header object. -/
def emptyHeaders : Headers := fun _ => none

/-- Setting one key of a header object (later assignment wins). -/
def hset (h : Headers) (k v : String) : Headers :=
  fun x => if x = k then some v else h x

/-- The JS delete operator on a header object key. -/
def hdel (h : Headers) (k : String) : Headers :=
  fun x => if x = k then none else h x

/-- JS object spread of two header objects: keys of the second win. -/
def hmerge (base overrides : Headers) : Headers :=
  fun x =>
    match overrides x with
    | some v => some v
    | none => base x

/-- The defaultHeaders field of ApiClient. -/
def clientDefaultHeaders : Headers := hset emptyHeaders "Content-Type" "application/json"

/-- Header assembly in ApiClient.request: spread defaults then config headers,
    then add the Authorization header when a token is set, then delete
    Content-Type when the body is FormData. -/
def buildHeaders (defaults overrides : Headers) (authToken : Option String)
    (isFormData : Bool) : Headers :=
  let merged := hmerge defaults overrides
  let withAuth :=
    match authToken with
    | some t => hset merged "Authorization" ("Bearer " ++ t)
    | none => merged
  if isFormData then hdel withAuth "Content-Type" else withAuth

/-- Timeout resolution in ApiClient.request: the destructuring default is
    UPLOAD_TIMEOUT for FormData bodies and DEFAULT_TIMEOUT otherwise, unless
    the per-request config supplies a timeout. -/
def resolveTimeout (configTimeout : Option Nat) (isFormData : Bool) : Nat :=
  match configTimeout with
  | some t => t
  | none => if isFormData then UPLOAD_TIMEOUT else DEFAULT_TIMEOUT

/-- The observable pieces of a fetch Response that the request loop consumes:
    status, the parsed integer Retry-After header if present, the error and
    message and details fields of the best-effort JSON error body (all absent
    when decoding fails), whether the content-type indicates JSON, and an
    identifier for the decoded JSON success body. -/
structure Response where
  status : Nat
  retryAfter : Option Nat
  bodyError : Option String
  bodyMessage : Option String
  bodyDetails : Option (List (String × String))
  contentTypeJson : Bool
  jsonBody : String
  deriving DecidableEq, Repr

/-- Outcome of one fetch call: a resolved response, a rejection whose name is
    AbortError (the timeout signal fired), or any other transport rejection. -/
inductive FetchOutcome where
  | success (r : Response)
  | abortError
  | networkError (msg : String)
  deriving DecidableEq, Repr

/-- An exception escaping the request function: either the typed ApiError
    carrier of (message, status, details), or a raw non-ApiError exception. -/
inductive Thrown where
  | apiError (message : String) (status : Nat) (details : Option (List (String × String)))
  | rawError (msg : String)
  deriving DecidableEq, Repr

/-- The status field of a thrown error, when it is the typed carrier. -/
def thrownStatus : Thrown → Option Nat
  | Thrown.apiError _ s _ => some s
  | Thrown.rawError _ => none

/-- A value returned normally by the request function: the decoded JSON body,
    or the empty object returned for non-JSON responses. -/
inductive ApiValue where
  | json (body : String)
  | emptyObj
  deriving DecidableEq, Repr

/-- Observable side effects of the request loop: arming the timeout timer for
    an attempt, clearing it, sleeping for a delay in milliseconds, and
    dispatching the auth-expired window event. -/
inductive Event where
  | armed (attempt : Nat)
  | cleared (attempt : Nat)
  | slept (ms : Rat)
  | broadcastAuthExpired
  deriving DecidableEq, Repr

/-- JS truthiness of an optional string field (an absent field and the empty
    string are falsy). -/
def truthy : Option String → Bool
  | some s => !s.isEmpty
  | none => false

/-- The message of the ApiError built from a non-2xx response body:
    errorData.error, else errorData.message, else an HTTP status fallback. -/
def errorMessage (r : Response) : String :=
  if truthy r.bodyError then r.bodyError.getD ""
  else if truthy r.bodyMessage then r.bodyMessage.getD ""
  else "HTTP " ++ toString r.status

/-- The ApiError thrown for a non-2xx response in ApiClient.request. -/
def apiErrorOfResponse (r : Response) : Thrown :=
  Thrown.apiError (errorMessage r) r.status r.bodyDetails

/-- The rate-limit delay computed for a 429 response: Retry-After seconds
    times 1000, or 60000 ms when the header is absent. -/
def rateLimitDelay : Option Nat → Rat
  | some s => (s : Rat) * 1000
  | none => 60000

/-- The retry for-loop of ApiClient.request. The first Nat argument is the
    current attempt counter, the second the number of loop iterations still
    to run (the loop condition attempt less-or-equal retries), and the Option
    Thrown argument is the lastError variable. Falls off the end of the catch
    block by advancing to the next iteration, exactly as the for loop does. -/
def requestLoop (retries : Nat) (skipRetry hasWindow : Bool)
    (outcomes : Nat → FetchOutcome) (jit : Nat → Rat) :
    Nat → Nat → Option Thrown → Except Thrown ApiValue × List Event
  | _, 0, lastError =>
    (Except.error (lastError.getD (Thrown.apiError "Request failed" 500 none)), [])
  | attempt, remaining + 1, lastError =>
    match outcomes attempt with
    | FetchOutcome.success r =>
      if r.status = 429 then
        if attempt < retries ∧ skipRetry = false then
          ((requestLoop retries skipRetry hasWindow outcomes jit (attempt + 1) remaining lastError).1,
            Event.armed attempt :: Event.cleared attempt ::
              Event.slept (rateLimitDelay r.retryAfter) ::
              (requestLoop retries skipRetry hasWindow outcomes jit (attempt + 1) remaining lastError).2)
        else
          (Except.error (apiErrorOfResponse r),
            [Event.armed attempt, Event.cleared attempt])
      else if r.status = 401 then
        (Except.error (Thrown.apiError "Authentication expired" 401 none),
          Event.armed attempt :: Event.cleared attempt ::
            (if hasWindow then [Event.broadcastAuthExpired] else []))
      else if 200 ≤ r.status ∧ r.status < 300 then
        (Except.ok (if r.contentTypeJson then ApiValue.json r.jsonBody else ApiValue.emptyObj),
          [Event.armed attempt, Event.cleared attempt])
      else if isRetryableError r.status = true ∧ attempt < retries ∧ skipRetry = false then
        ((requestLoop retries skipRetry hasWindow outcomes jit (attempt + 1) remaining lastError).1,
          Event.armed attempt :: Event.cleared attempt ::
            Event.slept (calculateRetryDelay attempt (jit attempt)) ::
            (requestLoop retries skipRetry hasWindow outcomes jit (attempt + 1) remaining lastError).2)
      else if r.status < 500 then
        (Except.error (apiErrorOfResponse r),
          [Event.armed attempt, Event.cleared attempt])
      else if attempt < retries ∧ skipRetry = false then
        ((requestLoop retries skipRetry hasWindow outcomes jit (attempt + 1) remaining
            (some (apiErrorOfResponse r))).1,
          Event.armed attempt :: Event.cleared attempt ::
            Event.slept (calculateRetryDelay attempt (jit attempt)) ::
            (requestLoop retries skipRetry hasWindow outcomes jit (attempt + 1) remaining
              (some (apiErrorOfResponse r))).2)
      else
        ((requestLoop retries skipRetry hasWindow outcomes jit (attempt + 1) remaining
            (some (apiErrorOfResponse r))).1,
          Event.armed attempt :: Event.cleared attempt ::
            (requestLoop retries skipRetry hasWindow outcomes jit (attempt + 1) remaining
              (some (apiErrorOfResponse r))).2)
    | FetchOutcome.abortError =>
      (Except.error (Thrown.apiError "Request timeout" 408 none), [Event.armed attempt])
    | FetchOutcome.networkError msg =>
      if attempt < retries ∧ skipRetry = false then
        ((requestLoop retries skipRetry hasWindow outcomes jit (attempt + 1) remaining
            (some (Thrown.rawError msg))).1,
          Event.armed attempt ::
            Event.slept (calculateRetryDelay attempt (jit attempt)) ::
            (requestLoop retries skipRetry hasWindow outcomes jit (attempt + 1) remaining
              (some (Thrown.rawError msg))).2)
      else
        ((requestLoop retries skipRetry hasWindow outcomes jit (attempt + 1) remaining
            (some (Thrown.rawError msg))).1,
          Event.armed attempt ::
            (requestLoop retries skipRetry hasWindow outcomes jit (attempt + 1) remaining
              (some (Thrown.rawError msg))).2)

/-- One full execution of ApiClient.request: the for loop starts at attempt 0
    with retries plus one iterations available and lastError null. -/
def runRequest (retries : Nat) (skipRetry hasWindow : Bool)
    (outcomes : Nat → FetchOutcome) (jit : Nat → Rat) :
    Except Thrown ApiValue × List Event :=
  requestLoop retries skipRetry hasWindow outcomes jit 0 (retries + 1) none

/-- Number of attempts performed in an execution: each attempt arms the
    timeout timer exactly once, before its fetch call. -/
def attemptCount (evs : List Event) : Nat :=
  (evs.filter fun e =>
    match e with
    | Event.armed _ => true
    | _ => false).length

/-- Number of auth-expired broadcasts in an execution. -/
def broadcastCount (evs : List Event) : Nat :=
  (evs.filter fun e =>
    match e with
    | Event.broadcastAuthExpired => true
    | _ => false).length

/-- A bare 500 response with an undecodable body, as a concrete test vector. -/
def resp500 : Response :=
  { status := 500, retryAfter := none, bodyError := none, bodyMessage := none,
    bodyDetails := none, contentTypeJson := false, jsonBody := "" }

/-- A network where every fetch resolves to the 500 response. -/
def const500Trace : Nat → FetchOutcome := fun _ => FetchOutcome.success resp500

/-- A jitter source that always samples zero. -/
def zeroJitter : Nat → Rat := fun _ => 0

/-- A 429 response carrying Retry-After 5, as a concrete test vector. -/
def resp429 : Response :=
  { status := 429, retryAfter := some 5, bodyError := none, bodyMessage := none,
    bodyDetails := none, contentTypeJson := false, jsonBody := "" }

/-- A network where every fetch resolves to the rate-limited response. -/
def const429Trace : Nat → FetchOutcome := fun _ => FetchOutcome.success resp429

/-- A 200 JSON response, as a concrete test vector. -/
def okResp : Response :=
  { status := 200, retryAfter := none, bodyError := none, bodyMessage := none,
    bodyDetails := none, contentTypeJson := true, jsonBody := "userdata" }

/-- A network whose first fetch rejects with a transport error and whose later
    fetches succeed with the 200 JSON response. -/
def netThenOkTrace : Nat → FetchOutcome
  | 0 => FetchOutcome.networkError "connection refused"
  | _ + 1 => FetchOutcome.success okResp

/-- A network where every fetch succeeds with the 200 JSON response. -/
def ok200Trace : Nat → FetchOutcome := fun _ => FetchOutcome.success okResp

/-- A 401 response, as a concrete test vector. -/
def resp401 : Response :=
  { status := 401, retryAfter := none, bodyError := none, bodyMessage := none,
    bodyDetails := none, contentTypeJson := false, jsonBody := "" }

/-- A network where every fetch resolves to the 401 response. -/
def only401Trace : Nat → FetchOutcome := fun _ => FetchOutcome.success resp401

/-- A network where every fetch rejects with a non-timeout transport error. -/
def allNetTrace : Nat → FetchOutcome := fun _ => FetchOutcome.networkError "network unreachable"

/-- A network where every fetch rejects with the timeout abort. -/
def allAbortTrace : Nat → FetchOutcome := fun _ => FetchOutcome.abortError

/- Unfolding lemmas for one iteration of the retry loop. -/

/-- Unfolding lemma: an attempt whose response has one of the statuses 500,
    502, 503 or 408 retries after a backoff sleep while attempts remain. -/
theorem step_retryable_statuses (retries : Nat) (hw : Bool)
    (outcomes : Nat → FetchOutcome) (jit : Nat → Rat)
    (attempt remaining : Nat) (lastE : Option Thrown) (r : Response)
    (ho : outcomes attempt = FetchOutcome.success r)
    (hs : r.status = 500 ∨ r.status = 502 ∨ r.status = 503 ∨ r.status = 408)
    (ha : attempt < retries) :
    requestLoop retries false hw outcomes jit attempt (remaining + 1) lastE =
      ((requestLoop retries false hw outcomes jit (attempt + 1) remaining lastE).1,
        Event.armed attempt :: Event.cleared attempt ::
          Event.slept (calculateRetryDelay attempt (jit attempt)) ::
          (requestLoop retries false hw outcomes jit (attempt + 1) remaining lastE).2) := by
  have h429 : ¬ r.status = 429 := by rcases hs with h | h | h | h <;> omega
  have h401 : ¬ r.status = 401 := by rcases hs with h | h | h | h <;> omega
  have hok : ¬ (200 ≤ r.status ∧ r.status < 300) := by
    rcases hs with h | h | h | h <;> omega
  have hretry : isRetryableError r.status = true := by
    rcases hs with h | h | h | h <;> simp [isRetryableError, h]
  simp only [requestLoop, ho]
  rw [if_neg h429, if_neg h401, if_neg hok, if_pos ⟨hretry, ha, trivial⟩]

/-- Unfolding lemma: the last allowed attempt with a response of status 500,
    502, 503 or 408 ends the call with the ApiError built from that response. -/
theorem final_retryable_statuses (retries : Nat) (hw : Bool)
    (outcomes : Nat → FetchOutcome) (jit : Nat → Rat)
    (attempt : Nat) (lastE : Option Thrown) (r : Response)
    (ho : outcomes attempt = FetchOutcome.success r)
    (hs : r.status = 500 ∨ r.status = 502 ∨ r.status = 503 ∨ r.status = 408)
    (hna : ¬ attempt < retries) :
    requestLoop retries false hw outcomes jit attempt 1 lastE =
      (Except.error (apiErrorOfResponse r),
        [Event.armed attempt, Event.cleared attempt]) := by
  have h429 : ¬ r.status = 429 := by rcases hs with h | h | h | h <;> omega
  have h401 : ¬ r.status = 401 := by rcases hs with h | h | h | h <;> omega
  have hok : ¬ (200 ≤ r.status ∧ r.status < 300) := by
    rcases hs with h | h | h | h <;> omega
  have hcond : ¬ (isRetryableError r.status = true ∧ attempt < retries ∧ True) := by
    intro h
    exact hna h.2.1
  have hcond2 : ¬ (attempt < retries ∧ True) := by
    intro h
    exact hna h.1
  show requestLoop retries false hw outcomes jit attempt (0 + 1) lastE = _
  simp only [requestLoop, ho]
  rw [if_neg h429, if_neg h401, if_neg hok, if_neg hcond]
  rcases Nat.lt_or_ge r.status 500 with hlt | hge
  · rw [if_pos hlt]
  · rw [if_neg (by omega), if_neg hcond2]
    simp

/-- Unfolding lemma: a rate-limited attempt with attempts remaining sleeps for
    the Retry-After delay and retries. -/
theorem step_rate_limited (retries : Nat) (hw : Bool)
    (outcomes : Nat → FetchOutcome) (jit : Nat → Rat)
    (attempt remaining : Nat) (lastE : Option Thrown) (r : Response)
    (ho : outcomes attempt = FetchOutcome.success r)
    (h429 : r.status = 429) (ha : attempt < retries) :
    requestLoop retries false hw outcomes jit attempt (remaining + 1) lastE =
      ((requestLoop retries false hw outcomes jit (attempt + 1) remaining lastE).1,
        Event.armed attempt :: Event.cleared attempt ::
          Event.slept (rateLimitDelay r.retryAfter) ::
          (requestLoop retries false hw outcomes jit (attempt + 1) remaining lastE).2) := by
  simp only [requestLoop, ho]
  rw [if_pos h429, if_pos ⟨ha, trivial⟩]

/-- C1: for a request whose attempts under the default configuration all
    receive retryable statuses 500, 502, 503 or 408, the client performs
    exactly MAX_RETRIES plus one equals four total attempts, and once retries
    are exhausted it raises the typed ApiError whose status equals the status
    of the last response. -/
theorem retryable_statuses_exhaust_budget (hw : Bool)
    (outcomes : Nat → FetchOutcome) (jit : Nat → Rat) (r0 r1 r2 r3 : Response)
    (ho0 : outcomes 0 = FetchOutcome.success r0)
    (ho1 : outcomes 1 = FetchOutcome.success r1)
    (ho2 : outcomes 2 = FetchOutcome.success r2)
    (ho3 : outcomes 3 = FetchOutcome.success r3)
    (hs0 : r0.status = 500 ∨ r0.status = 502 ∨ r0.status = 503 ∨ r0.status = 408)
    (hs1 : r1.status = 500 ∨ r1.status = 502 ∨ r1.status = 503 ∨ r1.status = 408)
    (hs2 : r2.status = 500 ∨ r2.status = 502 ∨ r2.status = 503 ∨ r2.status = 408)
    (hs3 : r3.status = 500 ∨ r3.status = 502 ∨ r3.status = 503 ∨ r3.status = 408) :
    (runRequest MAX_RETRIES false hw outcomes jit).1 =
        Except.error (apiErrorOfResponse r3) ∧
      thrownStatus (apiErrorOfResponse r3) = some r3.status ∧
      attemptCount (runRequest MAX_RETRIES false hw outcomes jit).2 = 4 := by
  have e0 := step_retryable_statuses 3 hw outcomes jit 0 3 none r0 ho0 hs0 (by omega)
  have e1 := step_retryable_statuses 3 hw outcomes jit 1 2 none r1 ho1 hs1 (by omega)
  have e2 := step_retryable_statuses 3 hw outcomes jit 2 1 none r2 ho2 hs2 (by omega)
  have e3 := final_retryable_statuses 3 hw outcomes jit 3 none r3 ho3 hs3 (by omega)
  norm_num at e0 e1 e2
  refine ⟨?_, rfl, ?_⟩
  · show (requestLoop 3 false hw outcomes jit 0 4 none).1 = _
    simp only [e0, e1, e2, e3]
  · show attemptCount (requestLoop 3 false hw outcomes jit 0 4 none).2 = 4
    simp only [e0, e1, e2, e3]
    simp [attemptCount]

/-- Concrete check of retryable_statuses_exhaust_budget on a network that
    always answers 500. -/
theorem retryable_statuses_exhaust_budget_check :
    (runRequest MAX_RETRIES false true const500Trace zeroJitter).1 =
        Except.error (apiErrorOfResponse resp500) ∧
      thrownStatus (apiErrorOfResponse resp500) = some resp500.status ∧
      attemptCount (runRequest MAX_RETRIES false true const500Trace zeroJitter).2 = 4 :=
  retryable_statuses_exhaust_budget true const500Trace zeroJitter
    resp500 resp500 resp500 resp500 rfl rfl rfl rfl
    (Or.inl rfl) (Or.inl rfl) (Or.inl rfl) (Or.inl rfl)

/-- C2: a 429 response with attempts remaining and retry not disabled makes
    the client sleep before retrying, for exactly Retry-After times 1000 ms
    when the header carries the integer value s, and for 60000 ms when the
    header is absent. -/
theorem rate_limited_sleep_delay (retries : Nat) (hw : Bool)
    (outcomes : Nat → FetchOutcome) (jit : Nat → Rat)
    (attempt remaining : Nat) (lastE : Option Thrown) (r : Response)
    (ho : outcomes attempt = FetchOutcome.success r)
    (h429 : r.status = 429) (ha : attempt < retries) :
    ∃ d : Rat,
      (requestLoop retries false hw outcomes jit attempt (remaining + 1) lastE).2 =
        Event.armed attempt :: Event.cleared attempt :: Event.slept d ::
          (requestLoop retries false hw outcomes jit (attempt + 1) remaining lastE).2 ∧
      (∀ s : Nat, r.retryAfter = some s → d = (s : Rat) * 1000) ∧
      (r.retryAfter = none → d = 60000) := by
  refine ⟨rateLimitDelay r.retryAfter, ?_, ?_, ?_⟩
  · rw [step_rate_limited retries hw outcomes jit attempt remaining lastE r ho h429 ha]
  · intro s hs
    rw [hs]
    rfl
  · intro hs
    rw [hs]
    rfl

/-- Concrete check of rate_limited_sleep_delay on a 429 response carrying
    Retry-After 5. -/
theorem rate_limited_sleep_delay_check :
    ∃ d : Rat,
      (requestLoop 3 false true const429Trace zeroJitter 0 (2 + 1) none).2 =
        Event.armed 0 :: Event.cleared 0 :: Event.slept d ::
          (requestLoop 3 false true const429Trace zeroJitter (0 + 1) 2 none).2 ∧
      (∀ s : Nat, resp429.retryAfter = some s → d = (s : Rat) * 1000) ∧
      (resp429.retryAfter = none → d = 60000) :=
  rate_limited_sleep_delay 3 true const429Trace zeroJitter 0 2 none resp429
    rfl rfl (by omega)

/-- C3: for every attempt number and every jitter sample in the interval from
    0 inclusive to 1000 exclusive, the backoff delay equals
    min of 1000 times 2 to the attempt plus jitter and 10000, and therefore
    lies in the half-open interval from 1000 times 2 to the attempt (clipped
    to 10000) up to 1000 times 2 to the attempt plus 1000, never exceeding
    10000. -/
theorem backoff_delay_formula (attempt : Nat) (jitter : Rat)
    (h0 : 0 ≤ jitter) (h1 : jitter < 1000) :
    calculateRetryDelay attempt jitter = min (1000 * 2 ^ attempt + jitter) 10000 ∧
    min (1000 * 2 ^ attempt) 10000 ≤ calculateRetryDelay attempt jitter ∧
    (calculateRetryDelay attempt jitter < 1000 * 2 ^ attempt + 1000 ∨
      calculateRetryDelay attempt jitter = 10000) ∧
    calculateRetryDelay attempt jitter ≤ 10000 := by
  unfold calculateRetryDelay INITIAL_RETRY_DELAY MAX_RETRY_DELAY
  refine ⟨rfl, ?_, ?_, min_le_right _ _⟩
  · exact le_min (le_trans (min_le_left _ _) (by linarith)) (min_le_right _ _)
  · rcases min_cases (1000 * (2 : Rat) ^ attempt + jitter) 10000 with ⟨he, _⟩ | ⟨he, _⟩
    · left
      rw [he]
      linarith
    · right
      exact he

/-- Concrete check of backoff_delay_formula at attempt 2 with jitter 500. -/
theorem backoff_delay_formula_check :
    calculateRetryDelay 2 500 = min (1000 * 2 ^ 2 + 500) 10000 ∧
    min (1000 * 2 ^ 2) 10000 ≤ calculateRetryDelay 2 500 ∧
    (calculateRetryDelay 2 500 < 1000 * 2 ^ 2 + 1000 ∨
      calculateRetryDelay 2 500 = 10000) ∧
    calculateRetryDelay 2 500 ≤ 10000 :=
  backoff_delay_formula 2 500 (by norm_num) (by norm_num)

/-- C7: an attempt whose fetch rejects because the timeout signal fired ends
    the whole call immediately with the typed ApiError 408 Request timeout,
    with no further attempt, whatever the attempt number, the remaining
    budget, the retry flag or the captured last error. -/
theorem timeout_terminal (retries : Nat) (skipRetry hw : Bool)
    (outcomes : Nat → FetchOutcome) (jit : Nat → Rat)
    (attempt remaining : Nat) (lastE : Option Thrown)
    (ho : outcomes attempt = FetchOutcome.abortError) :
    requestLoop retries skipRetry hw outcomes jit attempt (remaining + 1) lastE =
      (Except.error (Thrown.apiError "Request timeout" 408 none),
        [Event.armed attempt]) := by
  simp only [requestLoop, ho]

/-- Concrete check of timeout_terminal on a fetch that aborts at attempt 0. -/
theorem timeout_terminal_check :
    requestLoop 3 false true allAbortTrace zeroJitter 0 (3 + 1) none =
      (Except.error (Thrown.apiError "Request timeout" 408 none),
        [Event.armed 0]) :=
  timeout_terminal 3 false true allAbortTrace zeroJitter 0 3 none rfl

/-- C4: the source clears the timeout timer only after a resolved fetch; on
    the exit path where the fetch itself rejects with a transport error, the
    catch block never clears the timer armed for that attempt, so the whole
    execution below arms the attempt-0 timer and never clears it even though
    the request goes on to retry and succeed. -/
theorem timer_left_armed_on_transport_error :
    (runRequest 3 false true netThenOkTrace zeroJitter).1 =
        Except.ok (ApiValue.json "userdata") ∧
      Event.armed 0 ∈ (runRequest 3 false true netThenOkTrace zeroJitter).2 ∧
      Event.cleared 0 ∉ (runRequest 3 false true netThenOkTrace zeroJitter).2 := by
  refine ⟨rfl, ?_, ?_⟩ <;> decide

/-- C5 counterexample: in an environment without a window object, a 401
    response still raises the typed 401 error immediately but broadcasts the
    auth-expired notification zero times, not exactly once. -/
theorem auth_no_broadcast_without_window :
    (runRequest 3 false false only401Trace zeroJitter).1 =
        Except.error (Thrown.apiError "Authentication expired" 401 none) ∧
      broadcastCount (runRequest 3 false false only401Trace zeroJitter).2 = 0 := by
  refine ⟨rfl, ?_⟩
  decide

/-- C5 amended: a 401 response on the first attempt ends the call at once
    with the typed 401 error, after exactly one attempt and no retry, and the
    auth-expired notification is broadcast exactly once when a window object
    exists and zero times otherwise. -/
theorem auth_expired_behavior (retries : Nat) (skipRetry hw : Bool)
    (outcomes : Nat → FetchOutcome) (jit : Nat → Rat) (r : Response)
    (ho : outcomes 0 = FetchOutcome.success r) (h401 : r.status = 401) :
    runRequest retries skipRetry hw outcomes jit =
        (Except.error (Thrown.apiError "Authentication expired" 401 none),
          Event.armed 0 :: Event.cleared 0 ::
            (if hw then [Event.broadcastAuthExpired] else [])) ∧
      broadcastCount (runRequest retries skipRetry hw outcomes jit).2 =
        (if hw then 1 else 0) ∧
      attemptCount (runRequest retries skipRetry hw outcomes jit).2 = 1 := by
  have h429 : ¬ r.status = 429 := by omega
  have hmain :
      runRequest retries skipRetry hw outcomes jit =
        (Except.error (Thrown.apiError "Authentication expired" 401 none),
          Event.armed 0 :: Event.cleared 0 ::
            (if hw then [Event.broadcastAuthExpired] else [])) := by
    show requestLoop retries skipRetry hw outcomes jit 0 (retries + 1) none = _
    simp only [requestLoop, ho]
    rw [if_neg h429, if_pos h401]
  refine ⟨hmain, ?_, ?_⟩ <;> rw [hmain] <;> cases hw <;> rfl

/-- Concrete check of auth_expired_behavior with a window present. -/
theorem auth_expired_behavior_check :
    runRequest 3 false true only401Trace zeroJitter =
        (Except.error (Thrown.apiError "Authentication expired" 401 none),
          Event.armed 0 :: Event.cleared 0 ::
            (if true then [Event.broadcastAuthExpired] else [])) ∧
      broadcastCount (runRequest 3 false true only401Trace zeroJitter).2 =
        (if true then 1 else 0) ∧
      attemptCount (runRequest 3 false true only401Trace zeroJitter).2 = 1 :=
  auth_expired_behavior 3 false true only401Trace zeroJitter resp401 rfl rfl

/-- C6 counterexample: a request whose every fetch rejects with a non-timeout
    transport error exhausts the retry budget and surfaces the raw transport
    error itself, which is not the typed ApiError carrier and has no numeric
    status. -/
theorem transport_exhaustion_surfaces_raw :
    (runRequest 3 false true allNetTrace zeroJitter).1 =
        Except.error (Thrown.rawError "network unreachable") ∧
      thrownStatus (Thrown.rawError "network unreachable") = none := by
  refine ⟨rfl, rfl⟩

/-- C6 amended: when all four attempts under the default configuration reject
    with non-timeout transport errors, the call raises the last-seen raw
    transport error, not the typed ApiError carrier. -/
theorem transport_exhaustion_last_error (hw : Bool)
    (outcomes : Nat → FetchOutcome) (jit : Nat → Rat) (m0 m1 m2 m3 : String)
    (h0 : outcomes 0 = FetchOutcome.networkError m0)
    (h1 : outcomes 1 = FetchOutcome.networkError m1)
    (h2 : outcomes 2 = FetchOutcome.networkError m2)
    (h3 : outcomes 3 = FetchOutcome.networkError m3) :
    (runRequest MAX_RETRIES false hw outcomes jit).1 =
        Except.error (Thrown.rawError m3) ∧
      thrownStatus (Thrown.rawError m3) = none := by
  refine ⟨?_, rfl⟩
  show (requestLoop 3 false hw outcomes jit 0 4 none).1 = _
  simp [requestLoop, h0, h1, h2, h3]

/-- Concrete check of transport_exhaustion_last_error on an always-failing
    network. -/
theorem transport_exhaustion_last_error_check :
    (runRequest MAX_RETRIES false true allNetTrace zeroJitter).1 =
        Except.error (Thrown.rawError "network unreachable") ∧
      thrownStatus (Thrown.rawError "network unreachable") = none :=
  transport_exhaustion_last_error true allNetTrace zeroJitter
    "network unreachable" "network unreachable" "network unreachable"
    "network unreachable" rfl rfl rfl rfl

/-- C8: for a FormData body the assembled header object never contains
    Content-Type, whatever the client defaults, the per-request overrides and
    the auth token, and the timeout resolved without an explicit per-request
    override is UPLOAD_TIMEOUT, 60000 ms, not DEFAULT_TIMEOUT, 30000 ms. -/
theorem formdata_headers_and_timeout (defaults overrides : Headers)
    (tok : Option String) :
    buildHeaders defaults overrides tok true "Content-Type" = none ∧
      resolveTimeout none true = 60000 ∧
      resolveTimeout none false = 30000 ∧
      UPLOAD_TIMEOUT = 60000 ∧
      DEFAULT_TIMEOUT = 30000 := by
  refine ⟨?_, rfl, rfl, rfl, rfl⟩
  cases tok <;> simp [buildHeaders, hdel]

/-- C9: the assembled headers are the merge of client defaults then
    per-request overrides with the override value winning at every key, and
    when an auth token is set the Authorization header always carries the
    bearer token, whatever value any override tried to give it. -/
theorem header_merge_and_auth_priority (defaults overrides : Headers)
    (t k : String) (hk : ¬ k = "Authorization") :
    buildHeaders defaults overrides (some t) false "Authorization" =
        some ("Bearer " ++ t) ∧
      buildHeaders defaults overrides (some t) false k =
        hmerge defaults overrides k ∧
      hmerge defaults overrides k =
        (match overrides k with
          | some v => some v
          | none => defaults k) := by
  refine ⟨?_, ?_, rfl⟩
  · simp [buildHeaders, hset]
  · simp [buildHeaders, hset, hk]

/-- Concrete check of header_merge_and_auth_priority: an override that
    rewrites Content-Type wins there, but cannot touch Authorization. -/
theorem header_merge_and_auth_priority_check :
    buildHeaders clientDefaultHeaders (hset emptyHeaders "Content-Type" "text/plain")
        (some "secret") false "Authorization" = some ("Bearer " ++ "secret") ∧
      buildHeaders clientDefaultHeaders (hset emptyHeaders "Content-Type" "text/plain")
        (some "secret") false "Content-Type" =
        hmerge clientDefaultHeaders (hset emptyHeaders "Content-Type" "text/plain")
          "Content-Type" ∧
      hmerge clientDefaultHeaders (hset emptyHeaders "Content-Type" "text/plain")
        "Content-Type" =
        (match hset emptyHeaders "Content-Type" "text/plain" "Content-Type" with
          | some v => some v
          | none => clientDefaultHeaders "Content-Type") :=
  header_merge_and_auth_priority clientDefaultHeaders
    (hset emptyHeaders "Content-Type" "text/plain") "secret" "Content-Type"
    (by decide)

/-- Helper: widening the attempt window of the success witness by one on the
    left. -/
theorem ok_witness_shift (outcomes : Nat → FetchOutcome) (attempt n : Nat)
    (v : ApiValue)
    (h : ∃ i r, attempt + 1 ≤ i ∧ i < attempt + 1 + n ∧
      outcomes i = FetchOutcome.success r ∧
      200 ≤ r.status ∧ r.status < 300 ∧
      v = (if r.contentTypeJson then ApiValue.json r.jsonBody else ApiValue.emptyObj)) :
    ∃ i r, attempt ≤ i ∧ i < attempt + (n + 1) ∧
      outcomes i = FetchOutcome.success r ∧
      200 ≤ r.status ∧ r.status < 300 ∧
      v = (if r.contentTypeJson then ApiValue.json r.jsonBody else ApiValue.emptyObj) := by
  obtain ⟨i, r, h1, h2, h3, h4, h5, h6⟩ := h
  exact ⟨i, r, by omega, by omega, h3, h4, h5, h6⟩

/-- Helper for C10: a normal return from any suffix of the retry loop comes
    from an attempt in that suffix whose response was 2xx, and the returned
    value is the decoded JSON body when the content type indicates JSON and
    the empty object otherwise. -/
theorem requestLoop_ok_from_2xx (retries : Nat) (skipRetry hw : Bool)
    (outcomes : Nat → FetchOutcome) (jit : Nat → Rat) :
    ∀ (remaining attempt : Nat) (lastE : Option Thrown) (v : ApiValue),
      (requestLoop retries skipRetry hw outcomes jit attempt remaining lastE).1 =
        Except.ok v →
      ∃ i r, attempt ≤ i ∧ i < attempt + remaining ∧
        outcomes i = FetchOutcome.success r ∧
        200 ≤ r.status ∧ r.status < 300 ∧
        v = (if r.contentTypeJson then ApiValue.json r.jsonBody else ApiValue.emptyObj) := by
  intro remaining
  induction remaining with
  | zero =>
    intro attempt lastE v h
    simp [requestLoop] at h
  | succ n ih =>
    intro attempt lastE v h
    rcases ho : outcomes attempt with r | _ | msg
    · simp only [requestLoop, ho] at h
      generalize hval :
        (if r.contentTypeJson = true then ApiValue.json r.jsonBody
          else ApiValue.emptyObj) = w at h
      split_ifs at h with c1 c2 c3 c4 c5 c6 c7 <;> simp at h <;>
        first
        | (refine ⟨attempt, r, le_refl _, by omega, ho, c4.1, c4.2, ?_⟩
           rw [hval]
           exact h.symm)
        | exact ok_witness_shift outcomes attempt n v (ih (attempt + 1) lastE v h)
        | exact ok_witness_shift outcomes attempt n v
            (ih (attempt + 1) (some (apiErrorOfResponse r)) v h)
    · simp only [requestLoop, ho] at h
      simp at h
    · simp only [requestLoop, ho] at h
      split_ifs at h with c1 <;> simp at h <;>
        exact ok_witness_shift outcomes attempt n v
          (ih (attempt + 1) (some (Thrown.rawError msg)) v h)

/-- C10: a full request execution returns a value normally only when some
    attempt received a 2xx response; the value is the decoded JSON body when
    the content type indicates JSON and the empty object otherwise, so a
    non-2xx status or transport failure is never converted into a normally
    returned value. -/
theorem normal_return_only_on_2xx (retries : Nat) (skipRetry hw : Bool)
    (outcomes : Nat → FetchOutcome) (jit : Nat → Rat) (v : ApiValue)
    (h : (runRequest retries skipRetry hw outcomes jit).1 = Except.ok v) :
    ∃ i r, i ≤ retries ∧
      outcomes i = FetchOutcome.success r ∧
      200 ≤ r.status ∧ r.status < 300 ∧
      v = (if r.contentTypeJson then ApiValue.json r.jsonBody else ApiValue.emptyObj) := by
  obtain ⟨i, r, hi1, hi2, h3, h4, h5, h6⟩ :=
    requestLoop_ok_from_2xx retries skipRetry hw outcomes jit (retries + 1) 0 none v h
  exact ⟨i, r, by omega, h3, h4, h5, h6⟩

/-- Concrete check of normal_return_only_on_2xx on a network that always
    answers 200 with a JSON body. -/
theorem normal_return_only_on_2xx_check :
    ∃ i r, i ≤ 3 ∧
      ok200Trace i = FetchOutcome.success r ∧
      200 ≤ r.status ∧ r.status < 300 ∧
      ApiValue.json "userdata" =
        (if r.contentTypeJson then ApiValue.json r.jsonBody else ApiValue.emptyObj) :=
  normal_return_only_on_2xx 3 false true ok200Trace zeroJitter
    (ApiValue.json "userdata") rfl

end Api
